import Mathlib

/-!
Verification of the asdc OAuth2 token-acquisition flow.

Shallow embedding of the two halves of the flow:
  * the Token Listener embedded in the notebook process
    (src/asdc/auth.py: set_token, TokenHandler, connect, stop_server),
  * the Callback Relay (src/asdc/server.py: TokensHandler, CallbackHandler,
    PKCE code_verifier / code_challenge creation),
  * the shared settings contract (auth.setup / _check_settings) and the
    API-call helper (src/asdc/__init__.py: call_api).

Mutable module globals of the Python source (nonce, token_data, access_token,
port, settings, application.tokens) are threaded as explicit state.  External
I/O (the identity provider, the browser) is passed in as oracles: a schedule
of token submissions for the listener's polling loop, and per-attempt
outcomes for the relay's token-endpoint calls.
-/

namespace Asdc

/-! ## Listener data model (src/asdc/auth.py) -/

/-- The decoded id_token part of a token payload: the browser posts a JSON
object whose id_token carries the nonce and exp claims read by the code. -/
structure IdToken where
  nonce : String
  exp : Int
  deriving DecidableEq

/-- A token payload delivered to the listener's /token route
(fields read by the source: data['id_token']['nonce'], data['id_token']['exp'],
data['access_token']). -/
structure TokenPayload where
  id_token : IdToken
  access_token : String
  deriving DecidableEq

/-- set_token (auth.py lines 161-172): when verification is enabled and the
payload's id-token nonce differs from the global nonce, the global token_data
is cleared to None; otherwise token_data becomes the payload.  The global
nonce itself is only read here, never written.  Returns the new token_data. -/
def set_token (nonce : String) (data : TokenPayload) (verify : Bool) :
    Option TokenPayload :=
  if verify && (data.id_token.nonce != nonce) then none else some data

/-- The listener-side mutable globals of auth.py: nonce (line 65),
token_data (line 63), access_token (line 62), port (line 64, `some p` while
the tornado server is bound to port p, `none` otherwise). -/
structure ListenerState where
  nonce : String
  token_data : Option TokenPayload
  access_token : String
  port : Option Nat
  deriving DecidableEq

/-- set_token acting on the full listener state: it assigns token_data and
touches nothing else (auth.py lines 161-172 write only the token_data
global; nonce is read for the comparison). -/
def listener_set_token (s : ListenerState) (data : TokenPayload)
    (verify : Bool) : ListenerState :=
  { s with token_data := set_token s.nonce data verify }

/-- TokenHandler.get (auth.py lines 190-198): the verify query argument
defaults to the string "True" when absent, and the nonce check is enabled
exactly when the received argument string equals "True"
(`set_token(t, verify == "True")`).  The base64/JSON transport decoding of
the payload is modelled as already done (it is a pure re-encoding). -/
def TokenHandler_get (s : ListenerState) (payload : TokenPayload)
    (verifyArg : Option String) : ListenerState :=
  listener_set_token s payload ((verifyArg.getD "True") == "True")

/-! ## Shared settings (auth.py settings dict, _check_settings) -/

/-- The process-wide settings dict of auth.py (lines 69-79).  The Python key
"token_prefix" is rendered here as authScheme. -/
structure Settings where
  default_baseurl : String
  api_audience : String
  api_client_id : String
  api_scope : String
  api_authurl : String
  authScheme : String
  provided : Bool
  deriving DecidableEq

/-- _check_settings (auth.py lines 124-127): raises
Exception('Settings not provided') when the provided flag is false. -/
def _check_settings (s : Settings) : Except String Unit :=
  if s.provided then Except.ok () else Except.error "Settings not provided"

/-! ## The connect polling loop (auth.py lines 372-459)

connect's waiting phase runs `for i in range(0, timeout_seconds*4)`;
each iteration first checks token_data and breaks if it is set, then does
`await asyncio.sleep(0.25)` followed by the blocking `time.sleep(0.25)` -
half a second of waiting per executed iteration.  Token submissions arrive
while the event loop is yielded: `arrivals i` is the submission (payload,
verify flag) the embedded server processes during iteration i, delivered
through set_token against the nonce issued for this attempt. -/

/-- The polling loop: iterates at most `remaining` times from index i with
current token_data td; returns the final token_data and the number of
iterations that actually slept (each such iteration is 0.5 s of wall time). -/
def connect_loop (nonce : String) (arrivals : Nat → Option (TokenPayload × Bool)) :
    Nat → Nat → Option TokenPayload → Option TokenPayload × Nat
  | _, 0, td => (td, 0)
  | i, r + 1, td =>
    if td.isSome then (td, 0)
    else
      let td2 := match arrivals i with
        | some dv => set_token nonce dv.1 dv.2
        | none => td
      let res := connect_loop nonce arrivals (i + 1) r td2
      (res.1, res.2 + 1)

/-- What one call of connect did: the outcome (ok, or the raised exception's
message), the final listener state, whether _serve bound a listener port,
whether _send emitted the browser auth request, and how many polling
iterations slept (0.5 s each). -/
structure ConnectResult where
  outcome : Except String Unit
  state : ListenerState
  served : Bool
  sent : Bool
  ticks : Nat

/-- The cached-token expiry check of connect (auth.py lines 418-427): an
existing token_data is cleared when its id_token exp is not in the future
(`dt <= now`). -/
def expireCheck (td : Option TokenPayload) (now : Int) : Option TokenPayload :=
  match td with
  | some d => if d.id_token.exp ≤ now then none else some d
  | none => none

/-- connect (auth.py lines 372-459).  Control flow of the source:
_check_settings; if token_data exists, clear it when its id_token exp is not
in the future (`dt <= now`); if token_data survives, print and return at once
(no _serve, no _send); otherwise _serve binds a port, _send issues a fresh
nonce and opens the login page, and the polling loop waits; on timeout the
exception is raised BEFORE stop_server, so the port stays bound; on success
access_token is taken from token_data and stop_server releases the port. -/
def connect (st : Settings) (s : ListenerState) (now : Int)
    (timeout_seconds : Nat) (freshNonce : String) (assignedPort : Nat)
    (arrivals : Nat → Option (TokenPayload × Bool)) : ConnectResult :=
  match _check_settings st with
  | Except.error e =>
    { outcome := Except.error e
      state := s
      served := false
      sent := false
      ticks := 0 }
  | Except.ok _ =>
    match expireCheck s.token_data now with
    | some d =>
      { outcome := Except.ok ()
        state := { s with token_data := some d }
        served := false
        sent := false
        ticks := 0 }
    | none =>
      let s1 : ListenerState :=
        { s with
          token_data := none
          port := some assignedPort
          nonce := freshNonce }
      let res := connect_loop freshNonce arrivals 0 (timeout_seconds * 4) none
      match res.1 with
      | none =>
        { outcome := Except.error "Timed out awaiting access token! "
          state := s1
          served := true
          sent := true
          ticks := res.2 }
      | some d =>
        { outcome := Except.ok ()
          state := { s1 with
            token_data := some d
            access_token := d.access_token
            port := none }
          served := true
          sent := true
          ticks := res.2 }

/-! ## call_api (src/asdc/__init__.py lines 40-84) -/

/-- The HTTP request call_api hands to the requests library. -/
structure ApiRequest where
  method : String
  url : String
  authHeader : String
  deriving DecidableEq

/-- call_api (asdc/__init__.py lines 40-84): prepends the configured audience
to relative urls, builds the Authorization header from the current
access_token, then issues a POST (when data is given) or GET.  The source
performs NO settings check: there is no error path before the network
request, which this embedding makes visible through the (never used) error
side of the Except. -/
def call_api (st : Settings) (access_token : String) (url : String)
    (hasData : Bool) : Except String ApiRequest :=
  let fullUrl := if url.take 4 == "http" then url else st.api_audience ++ url
  let auth :=
    if access_token != "" then st.authScheme ++ " " ++ access_token else ""
  Except.ok
    { method := if hasData then "POST" else "GET"
      url := fullUrl
      authHeader := auth }

/-! ## Callback Relay data model (src/asdc/server.py) -/

/-- The token set the relay caches (the dict authlib's fetch_token returns);
the fields the handlers read: expires_at, refresh_token, id_token, plus the
access token served to consumers. -/
structure TokenSet where
  id_token : String
  access_token : String
  refresh_token : String
  expires_at : Int
  deriving DecidableEq

/-- The tornado application state (server.py ServerApplication.__init__):
self.tokens (an empty dict - here none - until the first exchange) and
self.redirect_path. -/
structure RelayApp where
  tokens : Option TokenSet
  redirect_path : String
  deriving DecidableEq

/-- TokensHandler.get (server.py lines 251-287).  With no cached tokens the
handler raises HTTPError 404.  Otherwise, when expires_at is not in the
future (`dt <= now`), exactly one refresh_token call is made against the
token endpoint; `refreshResult` is its outcome (none models the exception
path).  On success the LOCAL variable tokens is rebound to the new set and
written in the response; on failure the original set is written.  In every
path self.application.tokens is left untouched.  The result carries the
response body, the application state after the request, and the number of
refresh calls the handler made. -/
def TokensHandler_get (app : RelayApp) (now : Int)
    (refreshResult : Option TokenSet) :
    Except Nat (TokenSet × RelayApp × Nat) :=
  match app.tokens with
  | none => Except.error 404
  | some ts =>
    if ts.expires_at ≤ now then
      match refreshResult with
      | some nt => Except.ok (nt, app, 1)
      | none => Except.ok (ts, app, 1)
    else
      Except.ok (ts, app, 0)

/-- A Python exception as the callback handler can raise it: the
requests.exceptions.ConnectionError of a failed exchange, or the
UnboundLocalError Python raises when a local variable is read before any
assignment to it ran. -/
inductive PyErr where
  | connectionError
  | unboundLocal (name : String)
  deriving DecidableEq

/-- The process-level PKCE material server.py creates once at import time
(lines 152-157): code_verifier = generate_token(48) and the code_challenge
derived from it. -/
structure RelayProcess where
  code_verifier : String
  code_challenge : List Char
  deriving DecidableEq

/-! ## PKCE code challenge (server.py lines 152-164)

server.py computes, once at module load,
`code_challenge = create_s256_code_challenge(code_verifier)`.  authlib's
create_s256_code_challenge is
`urlsafe_b64encode(sha256(ascii_bytes(verifier)).digest()).rstrip(b"=")`:
the functions below embed that pipeline - the full SHA-256 of FIPS 180-4 as
hashlib computes it, and unpadded URL-safe base64. -/

/-- Truncation to a 32-bit word. -/
def w32 (x : Nat) : Nat := x % 4294967296

/-- Right rotation of a 32-bit word by n bits. -/
def rotr (n x : Nat) : Nat := w32 ((x >>> n) ||| (x <<< (32 - n)))

/-- The 64 SHA-256 round constants of FIPS 180-4, written in decimal. -/
def shaK : List Nat :=
  [1116352408, 1899447441, 3049323471, 3921009573, 961987163, 1508970993,
   2453635748, 2870763221, 3624381080, 310598401, 607225278, 1426881987,
   1925078388, 2162078206, 2614888103, 3248222580, 3835390401, 4022224774,
   264347078, 604807628, 770255983, 1249150122, 1555081692, 1996064986,
   2554220882, 2821834349, 2952996808, 3210313671, 3336571891, 3584528711,
   113926993, 338241895, 666307205, 773529912, 1294757372, 1396182291,
   1695183700, 1986661051, 2177026350, 2456956037, 2730485921, 2820302411,
   3259730800, 3345764771, 3516065817, 3600352804, 4094571909, 275423344,
   430227734, 506948616, 659060556, 883997877, 958139571, 1322822218,
   1537002063, 1747873779, 1955562222, 2024104815, 2227730452, 2361852424,
   2428436474, 2756734187, 3204031479, 3329325298]

/-- The eight 32-bit words of a SHA-256 hash state. -/
structure Hash8 where
  a : Nat
  b : Nat
  c : Nat
  d : Nat
  e : Nat
  f : Nat
  g : Nat
  h : Nat

/-- The SHA-256 initial hash value of FIPS 180-4, written in decimal. -/
def initH : Hash8 :=
  { a := 1779033703, b := 3144134277, c := 1013904242, d := 2773480762,
    e := 1359893119, f := 2600822924, g := 528734635, h := 1541459225 }

/-- One SHA-256 compression round; kw is the round constant plus the
scheduled message word. -/
def sha_round (st : Hash8) (kw : Nat) : Hash8 :=
  let bigS1 := (rotr 6 st.e) ^^^ (rotr 11 st.e) ^^^ (rotr 25 st.e)
  let ch := (st.e &&& st.f) ^^^ ((st.e ^^^ 4294967295) &&& st.g)
  let temp1 := w32 (st.h + bigS1 + ch + kw)
  let bigS0 := (rotr 2 st.a) ^^^ (rotr 13 st.a) ^^^ (rotr 22 st.a)
  let maj := (st.a &&& st.b) ^^^ (st.a &&& st.c) ^^^ (st.b &&& st.c)
  let temp2 := w32 (bigS0 + maj)
  { a := w32 (temp1 + temp2), b := st.a, c := st.b, d := st.c,
    e := w32 (st.d + temp1), f := st.e, g := st.f, h := st.g }

/-- The 16 big-endian 32-bit words of a 64-byte block. -/
def wordsOfBlock (block : List Nat) : List Nat :=
  (List.range 16).map (fun i =>
    w32 ((block.getD (4 * i) 0) * 16777216 + (block.getD (4 * i + 1) 0) * 65536
      + (block.getD (4 * i + 2) 0) * 256 + (block.getD (4 * i + 3) 0)))

/-- One message-schedule extension step: appends
w[n-16] + s0(w[n-15]) + w[n-7] + s1(w[n-2]). -/
def stepW (ws : List Nat) : List Nat :=
  let n := ws.length
  let w16 := ws.getD (n - 16) 0
  let w15 := ws.getD (n - 15) 0
  let w7 := ws.getD (n - 7) 0
  let w2 := ws.getD (n - 2) 0
  let s0 := (rotr 7 w15) ^^^ (rotr 18 w15) ^^^ (w15 >>> 3)
  let s1 := (rotr 17 w2) ^^^ (rotr 19 w2) ^^^ (w2 >>> 10)
  ws ++ [w32 (w16 + s0 + w7 + s1)]

/-- The 64-word message schedule of a block. -/
def schedule (block : List Nat) : List Nat :=
  (List.range 48).foldl (fun ws _ => stepW ws) (wordsOfBlock block)

/-- SHA-256 compression of one 64-byte block into the running hash. -/
def processBlock (h0 : Hash8) (block : List Nat) : Hash8 :=
  let kws := List.zipWith (fun k w => k + w) shaK (schedule block)
  let st := kws.foldl sha_round h0
  { a := w32 (h0.a + st.a), b := w32 (h0.b + st.b), c := w32 (h0.c + st.c),
    d := w32 (h0.d + st.d), e := w32 (h0.e + st.e), f := w32 (h0.f + st.f),
    g := w32 (h0.g + st.g), h := w32 (h0.h + st.h) }

/-- The 8-byte big-endian encoding of n. -/
def be8 (n : Nat) : List Nat :=
  [(n >>> 56) % 256, (n >>> 48) % 256, (n >>> 40) % 256, (n >>> 32) % 256,
   (n >>> 24) % 256, (n >>> 16) % 256, (n >>> 8) % 256, n % 256]

/-- SHA-256 padding: a 0x80 byte, zeros to 56 mod 64, then the bit length. -/
def padMessage (msg : List Nat) : List Nat :=
  let len := msg.length
  let zeros := (119 - (len % 64)) % 64
  msg ++ [128] ++ List.replicate zeros 0 ++ be8 (8 * len)

/-- Split a padded message into 64-byte blocks. -/
def toBlocks : List Nat → List (List Nat)
  | [] => []
  | b :: rest => (b :: rest).take 64 :: toBlocks ((b :: rest).drop 64)
  termination_by l => l.length
  decreasing_by simp [List.length_drop, List.length_cons]; omega

/-- The four big-endian bytes of a 32-bit word. -/
def wordBytes (w : Nat) : List Nat :=
  [(w / 16777216) % 256, (w / 65536) % 256, (w / 256) % 256, w % 256]

/-- The 32-byte digest of a final hash state. -/
def digestBytes (st : Hash8) : List Nat :=
  wordBytes st.a ++ wordBytes st.b ++ wordBytes st.c ++ wordBytes st.d ++
  wordBytes st.e ++ wordBytes st.f ++ wordBytes st.g ++ wordBytes st.h

/-- hashlib.sha256(msg).digest() over a byte list. -/
def sha256Bytes (msg : List Nat) : List Nat :=
  digestBytes ((toBlocks (padMessage msg)).foldl processBlock initH)

/-- The URL-safe base64 alphabet (RFC 4648 section 5). -/
def b64UrlAlphabet : List Char :=
  "ABCDEFGHIJKLMNOPQRSTUVWXYZabcdefghijklmnopqrstuvwxyz0123456789-_".toList

/-- The URL-safe base64 digit of a 6-bit value. -/
def b64char (n : Nat) : Char := b64UrlAlphabet.getD n 'A'

/-- base64.urlsafe_b64encode followed by rstrip(b"=") : unpadded URL-safe
base64 of a byte list. -/
def base64urlNoPad : List Nat → List Char
  | [] => []
  | [b1] => [b64char (b1 / 4), b64char (b1 % 4 * 16)]
  | [b1, b2] =>
    [b64char (b1 / 4), b64char (b1 % 4 * 16 + b2 / 16), b64char (b2 % 16 * 4)]
  | b1 :: b2 :: b3 :: rest =>
    b64char (b1 / 4) :: b64char (b1 % 4 * 16 + b2 / 16) ::
    b64char (b2 % 16 * 4 + b3 / 64) :: b64char (b3 % 64) ::
    base64urlNoPad rest

/-- The ASCII bytes of a verifier string (generate_token draws from an
ASCII alphabet). -/
def strBytes (s : String) : List Nat := s.toList.map Char.toNat

/-- authlib's create_s256_code_challenge (used at server.py line 157):
unpadded URL-safe base64 of the SHA-256 digest of the verifier's bytes. -/
def create_s256_code_challenge (v : String) : List Char :=
  base64urlNoPad (sha256Bytes (strBytes v))

/-- The relay process's module-load initialisation (server.py lines 155-157):
the verifier produced by generate_token(48) and its derived challenge,
created once and shared by every handler of this process instance. -/
def relay_init (rand : String) : RelayProcess :=
  { code_verifier := rand, code_challenge := create_s256_code_challenge rand }

/-- The retry loop of CallbackHandler.get (server.py lines 298-306):
`for i in range(retries)` with retries = 5; each attempt either returns a
token set (break) or raises ConnectionError which is caught and ignored
(`pass`, no backoff sleep).  `oracle i` is attempt i's outcome.  Returns the
tokens local variable's final binding (none = never assigned) and the number
of attempts made. -/
def fetch_loop (oracle : Nat → Option TokenSet) :
    Nat → Nat → Option TokenSet × Nat
  | _, 0 => (none, 0)
  | i, r + 1 =>
    match oracle i with
    | some ts => (some ts, 1)
    | none =>
      let res := fetch_loop oracle (i + 1) r
      (res.1, res.2 + 1)

/-- What one CallbackHandler.get request did. -/
structure CallbackResult where
  app : RelayApp
  raised : Option PyErr
  attempts : Nat
  used_verifier : String

/-- CallbackHandler.get (server.py lines 289-317): runs the five-attempt
exchange loop, each attempt passing the module-level code_verifier of the
relay process; then executes `self.application.tokens = tokens`.  When every
attempt raised ConnectionError, the loop exhausts with the caught exceptions
discarded and that assignment raises UnboundLocalError on the never-assigned
local `tokens`, leaving the application state unchanged.  (The write_port
side channel and the redirect/nowhere response are outside this model.) -/
def CallbackHandler_get (p : RelayProcess) (app : RelayApp)
    (oracle : Nat → Option TokenSet) : CallbackResult :=
  let res := fetch_loop oracle 0 5
  match res.1 with
  | some ts =>
    { app := { app with tokens := some ts }
      raised := none
      attempts := res.2
      used_verifier := p.code_verifier }
  | none =>
    { app := app
      raised := some (PyErr.unboundLocal "tokens")
      attempts := res.2
      used_verifier := p.code_verifier }

/-! ## Helper lemmas -/

/-- set_token only ever stores the payload it was given. -/
lemma set_token_some {nonce : String} {d q : TokenPayload} {v : Bool}
    (h : set_token nonce d v = some q) : q = d := by
  unfold set_token at h
  split at h
  · exact absurd h (by simp)
  · injection h with h1
    exact h1.symm

/-- A payload the polling loop ends on was either there at entry or was
delivered by some arrival that set_token accepted. -/
lemma connect_loop_fst_some (nonce : String)
    (arr : Nat → Option (TokenPayload × Bool)) :
    ∀ (r i : Nat) (td : Option TokenPayload) (q : TokenPayload),
    (connect_loop nonce arr i r td).1 = some q →
    td = some q ∨ ∃ j dv, arr j = some dv ∧ set_token nonce dv.1 dv.2 = some q := by
  intro r
  induction r with
  | zero =>
    intro i td q h
    exact Or.inl h
  | succ r ih =>
    intro i td q h
    simp only [connect_loop] at h
    split at h
    · exact Or.inl h
    · rename_i hnot
      cases ha : arr i with
      | none =>
        rw [ha] at h
        rcases ih (i + 1) td q h with h1 | h1
        · exact Or.inl h1
        · exact Or.inr h1
      | some dv =>
        rw [ha] at h
        rcases ih (i + 1) (set_token nonce dv.1 dv.2) q h with h1 | h1
        · exact Or.inr ⟨i, dv, ha, h1⟩
        · exact Or.inr h1

/-- When every arrival is rejected by set_token, the polling loop runs all
its iterations and ends with no token. -/
lemma connect_loop_rejected (nonce : String)
    (arr : Nat → Option (TokenPayload × Bool))
    (hrej : ∀ j dv, arr j = some dv → set_token nonce dv.1 dv.2 = none) :
    ∀ (r i : Nat), connect_loop nonce arr i r none = (none, r) := by
  intro r
  induction r with
  | zero => intro i; rfl
  | succ r ih =>
    intro i
    simp only [connect_loop]
    rw [if_neg (by simp)]
    cases ha : arr i with
    | none => simp [ih (i + 1)]
    | some dv => simp [hrej i dv ha, ih (i + 1)]

/-- An expiry check that keeps a token only keeps the one that was there. -/
lemma expireCheck_some {td : Option TokenPayload} {now : Int}
    {p : TokenPayload} (h : expireCheck td now = some p) : td = some p := by
  cases td with
  | none => exact Option.noConfusion h
  | some d =>
    by_cases hd : d.id_token.exp ≤ now
    · simp only [expireCheck, if_pos hd] at h
      exact Option.noConfusion h
    · simp only [expireCheck, if_neg hd] at h
      exact h

/-- connect with unprovided settings: the settings exception, no effects. -/
lemma connect_eq_unprovided (st : Settings) (s : ListenerState) (now : Int)
    (N : Nat) (fn : String) (ap : Nat)
    (arr : Nat → Option (TokenPayload × Bool))
    (hp : st.provided = false) :
    connect st s now N fn ap arr =
      { outcome := Except.error "Settings not provided"
        state := s
        served := false
        sent := false
        ticks := 0 } := by
  have hc : _check_settings st = Except.error "Settings not provided" := by
    simp [_check_settings, hp]
  simp only [connect, hc]

/-- connect with a cached token surviving the expiry check: the immediate
return path, with no serving, sending or waiting. -/
lemma connect_eq_valid (st : Settings) (s : ListenerState) (now : Int)
    (N : Nat) (fn : String) (ap : Nat)
    (arr : Nat → Option (TokenPayload × Bool)) (p : TokenPayload)
    (hp : st.provided = true)
    (h0 : expireCheck s.token_data now = some p) :
    connect st s now N fn ap arr =
      { outcome := Except.ok ()
        state := { s with token_data := some p }
        served := false
        sent := false
        ticks := 0 } := by
  have hc : _check_settings st = Except.ok () := by simp [_check_settings, hp]
  simp only [connect, hc, h0]

/-- connect when the polling loop ends with no token: the timeout exception
is raised with the port still bound. -/
lemma connect_eq_timeout (st : Settings) (s : ListenerState) (now : Int)
    (N : Nat) (fn : String) (ap : Nat)
    (arr : Nat → Option (TokenPayload × Bool))
    (hp : st.provided = true)
    (h0 : expireCheck s.token_data now = none)
    (hq : (connect_loop fn arr 0 (N * 4) none).1 = none) :
    connect st s now N fn ap arr =
      { outcome := Except.error "Timed out awaiting access token! "
        state := { s with
          token_data := none
          port := some ap
          nonce := fn }
        served := true
        sent := true
        ticks := (connect_loop fn arr 0 (N * 4) none).2 } := by
  have hc : _check_settings st = Except.ok () := by simp [_check_settings, hp]
  simp only [connect, hc, h0, hq]

/-- connect when the polling loop ends holding a token: the success path,
which extracts the access token and releases the port. -/
lemma connect_eq_success (st : Settings) (s : ListenerState) (now : Int)
    (N : Nat) (fn : String) (ap : Nat)
    (arr : Nat → Option (TokenPayload × Bool)) (q : TokenPayload)
    (hp : st.provided = true)
    (h0 : expireCheck s.token_data now = none)
    (hq : (connect_loop fn arr 0 (N * 4) none).1 = some q) :
    connect st s now N fn ap arr =
      { outcome := Except.ok ()
        state := { s with
          token_data := some q
          access_token := q.access_token
          port := none
          nonce := fn }
        served := true
        sent := true
        ticks := (connect_loop fn arr 0 (N * 4) none).2 } := by
  have hc : _check_settings st = Except.ok () := by simp [_check_settings, hp]
  simp only [connect, hc, h0, hq]

/-- When every attempt raises ConnectionError, the exchange loop runs all
its attempts and the tokens local is never assigned. -/
lemma fetch_loop_all_fail (oracle : Nat → Option TokenSet) :
    ∀ (r i : Nat), (∀ j, i ≤ j → j < i + r → oracle j = none) →
    fetch_loop oracle i r = (none, r) := by
  intro r
  induction r with
  | zero => intro i _; rfl
  | succ r ih =>
    intro i hall
    simp only [fetch_loop]
    rw [hall i (Nat.le_refl i) (by omega)]
    rw [ih (i + 1) (fun j hj1 hj2 => hall j (by omega) (by omega))]

/-- Every base64url digit of a 6-bit value is in the URL-safe alphabet. -/
lemma b64char_mem (n : Nat) (h : n < 64) : b64char n ∈ b64UrlAlphabet := by
  have hall : ∀ m < 64, b64char m ∈ b64UrlAlphabet := by decide
  exact hall n h

/-- Length of unpadded base64: 4 output digits per 3 input bytes, rounded
the way rstrip(b"=") leaves it. -/
lemma base64urlNoPad_length : ∀ l : List Nat,
    (base64urlNoPad l).length = (4 * l.length + 2) / 3
  | [] => by simp [base64urlNoPad]
  | [b1] => by simp [base64urlNoPad]
  | [b1, b2] => by simp [base64urlNoPad]
  | b1 :: b2 :: b3 :: rest => by
    have ih := base64urlNoPad_length rest
    simp only [base64urlNoPad, List.length_cons, ih]
    omega

/-- Every output digit of base64url on bytes is in the URL-safe alphabet. -/
lemma base64urlNoPad_mem : ∀ l : List Nat, (∀ b ∈ l, b < 256) →
    ∀ c ∈ base64urlNoPad l, c ∈ b64UrlAlphabet
  | [], _ => by simp [base64urlNoPad]
  | [b1], h => by
    have hb1 : b1 < 256 := h b1 (by simp)
    intro c hc
    simp only [base64urlNoPad, List.mem_cons, List.not_mem_nil, or_false] at hc
    rcases hc with rfl | rfl
    · exact b64char_mem _ (by omega)
    · exact b64char_mem _ (by omega)
  | [b1, b2], h => by
    have hb1 : b1 < 256 := h b1 (by simp)
    have hb2 : b2 < 256 := h b2 (by simp)
    intro c hc
    simp only [base64urlNoPad, List.mem_cons, List.not_mem_nil, or_false] at hc
    rcases hc with rfl | rfl | rfl
    · exact b64char_mem _ (by omega)
    · exact b64char_mem _ (by omega)
    · exact b64char_mem _ (by omega)
  | b1 :: b2 :: b3 :: rest, h => by
    have hb1 : b1 < 256 := h b1 (by simp)
    have hb2 : b2 < 256 := h b2 (by simp)
    have hb3 : b3 < 256 := h b3 (by simp)
    have ih := base64urlNoPad_mem rest
      (fun b hb => h b (by simp [hb]))
    intro c hc
    simp only [base64urlNoPad, List.mem_cons] at hc
    rcases hc with rfl | rfl | rfl | rfl | hc
    · exact b64char_mem _ (by omega)
    · exact b64char_mem _ (by omega)
    · exact b64char_mem _ (by omega)
    · exact b64char_mem _ (by omega)
    · exact ih c hc

/-- Each byte a 32-bit word serialises to is below 256. -/
lemma wordBytes_lt (w : Nat) : ∀ b ∈ wordBytes w, b < 256 := by
  intro b hb
  simp only [wordBytes, List.mem_cons, List.not_mem_nil, or_false] at hb
  rcases hb with rfl | rfl | rfl | rfl <;> exact Nat.mod_lt _ (by norm_num)

/-- A SHA-256 digest has 32 bytes. -/
lemma digestBytes_length (st : Hash8) : (digestBytes st).length = 32 := by
  simp [digestBytes, wordBytes]

/-- Every byte of a SHA-256 digest is below 256. -/
lemma digestBytes_lt (st : Hash8) : ∀ b ∈ digestBytes st, b < 256 := by
  intro b hb
  simp only [digestBytes, List.mem_append, or_assoc] at hb
  rcases hb with h | h | h | h | h | h | h | h <;> exact wordBytes_lt _ _ h

/-- sha256 always digests to 32 bytes. -/
lemma sha256Bytes_length (msg : List Nat) : (sha256Bytes msg).length = 32 :=
  digestBytes_length _

/-- sha256 digests to genuine bytes. -/
lemma sha256Bytes_lt (msg : List Nat) : ∀ b ∈ sha256Bytes msg, b < 256 :=
  digestBytes_lt _

/-! ## Concrete fixtures for witnesses and counterexamples -/

/-- A provided settings record (the usage example of auth.py's docstring). -/
def stOK : Settings :=
  { default_baseurl := "https://JUPYTERHUB_URL/user-redirect"
    api_audience := "https://MYSITE/api"
    api_client_id := "CLIENT_ID_HERE"
    api_scope := "openid profile email"
    api_authurl := "MY_OAUTH2_PROVIDER_URL"
    authScheme := "Bearer"
    provided := true }

/-- The module-default settings of auth.py lines 69-79: provided is False. -/
def stDefault : Settings :=
  { default_baseurl := "http://localhost:8888/user-redirect"
    api_audience := "https://MYSITE/api"
    api_client_id := ""
    api_scope := "openid profile email"
    api_authurl := "MY_OAUTH2_PROVIDER_URL"
    authScheme := "Bearer"
    provided := false }

/-- The listener globals at module load (auth.py lines 61-66). -/
def listener0 : ListenerState :=
  { nonce := "", token_data := none, access_token := "", port := none }

/-! ## The claims -/

/-- C10: For every GET request to the Listener's /token route, nonce
verification is performed if and only if the verify query parameter equals
exactly the string "True" (its default when absent); any other value,
including "true" or an arbitrary string, causes the submitted token payload
to be accepted without any nonce check.  CONFIRMED: with the argument absent
or equal to "True" the handler runs set_token with verification on (so a
mismatched nonce clears token_data); with any other string the payload is
stored unconditionally. -/
theorem C10_verify_param (s : ListenerState) (payload : TokenPayload)
    (u : String) :
    TokenHandler_get s payload none = listener_set_token s payload true ∧
    TokenHandler_get s payload (some "True") = listener_set_token s payload true ∧
    (u ≠ "True" → (TokenHandler_get s payload (some u)).token_data = some payload) ∧
    (payload.id_token.nonce ≠ s.nonce →
      (TokenHandler_get s payload (some "True")).token_data = none) := by
  refine ⟨rfl, rfl, ?_, ?_⟩
  · intro hu
    have hb : (u == "True") = false := beq_eq_false_iff_ne.mpr hu
    simp [TokenHandler_get, listener_set_token, set_token, hb]
  · intro hm
    simp [TokenHandler_get, listener_set_token, set_token, hm]

/-- C10 sample: the lowercase string "true" disables the nonce check, so a
payload with a wrong nonce is accepted, while the same payload submitted
with verify=True (or no verify argument) is rejected. -/
theorem C10_witness :
    (TokenHandler_get { listener0 with nonce := "n1" }
        { id_token := { nonce := "WRONG", exp := 9 }, access_token := "a" }
        (some "true")).token_data =
      some { id_token := { nonce := "WRONG", exp := 9 }, access_token := "a" } ∧
    (TokenHandler_get { listener0 with nonce := "n1" }
        { id_token := { nonce := "WRONG", exp := 9 }, access_token := "a" }
        (some "True")).token_data = none :=
  ⟨(C10_verify_param { listener0 with nonce := "n1" }
      { id_token := { nonce := "WRONG", exp := 9 }, access_token := "a" }
      "true").2.2.1 (by decide),
   (C10_verify_param { listener0 with nonce := "n1" }
      { id_token := { nonce := "WRONG", exp := 9 }, access_token := "a" }
      "true").2.2.2 (by decide)⟩

/-- C2 as stated is FALSE of the code: set_token (auth.py lines 161-172)
never writes the nonce global, so nothing invalidates the nonce after the
first successful verification.  At this concrete input the first
verify-enabled submission is accepted, the nonce is unchanged, and a second
verify-enabled submission carrying the very same nonce is accepted again as
a fresh proof. -/
theorem C2_counterexample :
    (listener_set_token { listener0 with nonce := "n1" }
        { id_token := { nonce := "n1", exp := 9 }, access_token := "a" }
        true).token_data =
      some { id_token := { nonce := "n1", exp := 9 }, access_token := "a" } ∧
    (listener_set_token { listener0 with nonce := "n1" }
        { id_token := { nonce := "n1", exp := 9 }, access_token := "a" }
        true).nonce = "n1" ∧
    (listener_set_token
        (listener_set_token { listener0 with nonce := "n1" }
          { id_token := { nonce := "n1", exp := 9 }, access_token := "a" }
          true)
        { id_token := { nonce := "n1", exp := 9 }, access_token := "a" }
        true).token_data =
      some { id_token := { nonce := "n1", exp := 9 }, access_token := "a" } := by
  refine ⟨by decide, by decide, by decide⟩

/-- C2 amended: the Listener never invalidates the nonce: set_token leaves
the nonce global untouched, so within one login attempt every verify-enabled
submission is accepted exactly when its id-token nonce equals the current
nonce - however many successful verifications came before - and the
verify=False reuse path stores the payload with no check at all.  The nonce
changes only when _send issues a fresh one for a new attempt. -/
theorem C2_nonce_never_invalidated (s : ListenerState) (d : TokenPayload)
    (v : Bool) :
    (listener_set_token s d v).nonce = s.nonce ∧
    ((listener_set_token s d true).token_data = some d ↔
      d.id_token.nonce = s.nonce) ∧
    (listener_set_token s d false).token_data = some d := by
  refine ⟨rfl, ?_, rfl⟩
  by_cases h : d.id_token.nonce = s.nonce
  · simp [listener_set_token, set_token, h]
  · simp [listener_set_token, set_token, h]

/-- An expired token set cached by the relay. -/
def tsOld : TokenSet :=
  { id_token := "idOld"
    access_token := "accOld"
    refresh_token := "r1"
    expires_at := 10 }

/-- A fresh token set as a successful refresh issues it. -/
def tsNew : TokenSet :=
  { id_token := "idNew"
    access_token := "accNew"
    refresh_token := "r2"
    expires_at := 99 }

/-- A relay application state holding the expired set. -/
def appOld : RelayApp := { tokens := some tsOld, redirect_path := "" }

/-- C4 as stated is FALSE of the code: TokensHandler.get rebinds only its
LOCAL tokens variable on a successful refresh (server.py line 281); the
cached self.application.tokens is never replaced.  At this concrete input
the refreshed set is returned in the response, yet the application state
still holds the old set, and the subsequent read observes the old tokens
(attempting yet another refresh). -/
theorem C4_counterexample :
    TokensHandler_get appOld 20 (some tsNew) =
      Except.ok (tsNew, appOld, 1) ∧
    appOld.tokens = some tsOld ∧
    some tsOld ≠ some tsNew ∧
    TokensHandler_get appOld 20 none = Except.ok (tsOld, appOld, 1) :=
  ⟨rfl, rfl, by decide, rfl⟩

/-- C4 amended: after a successful refresh triggered by a /tokens read with
expires_at in the past, the newly issued token set is returned in that
response only; the Relay's cached token set is NOT replaced (the handler
returns with application.tokens unchanged), so a subsequent read observes
the old tokens and attempts another refresh. -/
theorem C4_refresh_not_cached (app : RelayApp) (ts nt : TokenSet) (now : Int)
    (h1 : app.tokens = some ts) (h2 : ts.expires_at ≤ now) :
    TokensHandler_get app now (some nt) = Except.ok (nt, app, 1) := by
  simp only [TokensHandler_get, h1]
  rw [if_pos h2]

/-- C4 amended theorem at a concrete expired token set. -/
theorem C4_witness :
    TokensHandler_get appOld 11 (some tsNew) = Except.ok (tsNew, appOld, 1) :=
  C4_refresh_not_cached appOld tsOld tsNew 11 rfl (by decide)

/-- C5: For every /tokens request arriving when the cached token set's
expires_at is not in the future, exactly one refresh call is attempted; if
that refresh call fails the handler returns the previously cached token set
unchanged rather than an error, and the Relay keeps its cached token set
(it never drops to the empty unauthenticated state).  CONFIRMED, noting
that the code's trigger condition is dt <= now, so the boundary instant
expires_at = now also refreshes. -/
theorem C5_single_refresh_fallback (app : RelayApp) (ts : TokenSet)
    (now : Int) (h1 : app.tokens = some ts) (h2 : ts.expires_at ≤ now) :
    TokensHandler_get app now none = Except.ok (ts, app, 1) ∧
    (∀ nt, TokensHandler_get app now (some nt) = Except.ok (nt, app, 1)) ∧
    app.tokens ≠ none := by
  refine ⟨?_, fun nt => ?_, by simp [h1]⟩
  · simp only [TokensHandler_get, h1]
    rw [if_pos h2]
  · simp only [TokensHandler_get, h1]
    rw [if_pos h2]

/-- C5 at a concrete expired token set with a failing refresh. -/
theorem C5_witness :
    TokensHandler_get appOld 12 none = Except.ok (tsOld, appOld, 1) :=
  (C5_single_refresh_fallback appOld tsOld 12 rfl (by decide)).1

/-- C7 as stated is FALSE of the code: call_api (asdc/__init__.py lines
40-84) performs no settings check at all.  With the module-default settings,
whose provided flag is False, call_api still assembles and issues the GET
request (no configuration-missing error is raised before the network
request). -/
theorem C7_counterexample :
    stDefault.provided = false ∧
    call_api stDefault "" "/projects/" false =
      Except.ok { method := "GET"
                  url := "https://MYSITE/api/projects/"
                  authHeader := "" } := by
  exact ⟨rfl, rfl⟩

/-- C7 amended: connect refuses to proceed when the settings are not marked
provided - _check_settings raises 'Settings not provided' before any
listener, browser or network action - but call_api performs no such check
and issues its HTTP request regardless of the provided flag. -/
theorem C7_settings_check (st : Settings) (s : ListenerState) (now : Int)
    (N : Nat) (fn : String) (ap : Nat)
    (arr : Nat → Option (TokenPayload × Bool))
    (tok url : String) (hasData : Bool)
    (hp : st.provided = false) :
    _check_settings st = Except.error "Settings not provided" ∧
    (connect st s now N fn ap arr).outcome =
      Except.error "Settings not provided" ∧
    (connect st s now N fn ap arr).served = false ∧
    (connect st s now N fn ap arr).sent = false ∧
    (call_api st tok url hasData).isOk = true := by
  have hc : _check_settings st = Except.error "Settings not provided" := by
    simp [_check_settings, hp]
  refine ⟨hc, ?_, ?_, ?_, rfl⟩ <;> simp only [connect, hc]

/-- C7 amended theorem at the module-default (unprovided) settings. -/
theorem C7_witness :
    _check_settings stDefault = Except.error "Settings not provided" ∧
    (connect stDefault listener0 0 30 "n" 7000 (fun _ => none)).outcome =
      Except.error "Settings not provided" ∧
    (call_api stDefault "" "/projects/" false).isOk = true :=
  ⟨(C7_settings_check stDefault listener0 0 30 "n" 7000 (fun _ => none)
      "" "/projects/" false rfl).1,
   (C7_settings_check stDefault listener0 0 30 "n" 7000 (fun _ => none)
      "" "/projects/" false rfl).2.1,
   (C7_settings_check stDefault listener0 0 30 "n" 7000 (fun _ => none)
      "" "/projects/" false rfl).2.2.2.2⟩

/-- C6 as stated is FALSE of the code: the exchange loop of
CallbackHandler.get catches and DISCARDS each ConnectionError; when all 5
attempts fail nothing re-raises the last network exception - instead the
fall-through assignment `self.application.tokens = tokens` raises
UnboundLocalError on the never-assigned local, as this concrete all-failing
run shows. -/
theorem C6_counterexample :
    (CallbackHandler_get (relay_init "v") appOld (fun _ => none)).raised =
      some (PyErr.unboundLocal "tokens") ∧
    (CallbackHandler_get (relay_init "v") appOld (fun _ => none)).raised ≠
      some PyErr.connectionError ∧
    (CallbackHandler_get (relay_init "v") appOld (fun _ => none)).attempts = 5 ∧
    (CallbackHandler_get (relay_init "v") appOld (fun _ => none)).app = appOld :=
  ⟨rfl, by decide, rfl, rfl⟩

/-- C6 amended: the exchange is attempted up to 5 times with no backoff
(retries = 5, server.py line 298); when every attempt fails with
ConnectionError, the caught exceptions are all swallowed and the handler
instead fails with an UnboundLocalError on the unassigned tokens local,
leaving the application's cached tokens unchanged. -/
theorem C6_retry_behaviour (p : RelayProcess) (app : RelayApp)
    (oracle : Nat → Option TokenSet)
    (hfail : ∀ i, i < 5 → oracle i = none) :
    (CallbackHandler_get p app oracle).attempts = 5 ∧
    (CallbackHandler_get p app oracle).raised =
      some (PyErr.unboundLocal "tokens") ∧
    (CallbackHandler_get p app oracle).app = app := by
  have hloop : fetch_loop oracle 0 5 = (none, 5) :=
    fetch_loop_all_fail oracle 5 0 (fun j _ hj => hfail j (by omega))
  refine ⟨?_, ?_, ?_⟩ <;> simp only [CallbackHandler_get, hloop]

/-- C6 amended theorem on a concrete all-failing exchange. -/
theorem C6_witness :
    (CallbackHandler_get (relay_init "w") appOld (fun _ => none)).attempts = 5 ∧
    (CallbackHandler_get (relay_init "w") appOld (fun _ => none)).raised =
      some (PyErr.unboundLocal "tokens") :=
  ⟨(C6_retry_behaviour (relay_init "w") appOld (fun _ => none)
      (fun _ _ => rfl)).1,
   (C6_retry_behaviour (relay_init "w") appOld (fun _ => none)
      (fun _ _ => rfl)).2.1⟩

/-- C9: The Relay's PKCE code-challenge equals the base64url-encoded SHA-256
digest of its code-verifier; the verifier/challenge pair is created once at
relay process start (module load, server.py lines 155-157) and reused for
every authorization attempt of that process instance; and the challenge's
format is valid on every such start: 43 characters, all drawn from the
URL-safe base64 alphabet, whatever verifier generate_token produced.
CONFIRMED - the 43-character URL-safe property is proved for every process
start (every verifier string), and both callback invocations of a process
pass the same module-level verifier. -/
theorem C9_pkce_challenge (v : String) (app1 app2 : RelayApp)
    (o1 o2 : Nat → Option TokenSet) :
    (relay_init v).code_challenge = base64urlNoPad (sha256Bytes (strBytes v)) ∧
    (relay_init v).code_challenge.length = 43 ∧
    (∀ c ∈ (relay_init v).code_challenge, c ∈ b64UrlAlphabet) ∧
    (CallbackHandler_get (relay_init v) app1 o1).used_verifier = v ∧
    (CallbackHandler_get (relay_init v) app2 o2).used_verifier = v := by
  have hch : (relay_init v).code_challenge =
      base64urlNoPad (sha256Bytes (strBytes v)) := rfl
  have hlen : (relay_init v).code_challenge.length = 43 := by
    rw [hch, base64urlNoPad_length, sha256Bytes_length]
  have hmem : ∀ c ∈ (relay_init v).code_challenge, c ∈ b64UrlAlphabet := by
    rw [hch]
    exact base64urlNoPad_mem _ (sha256Bytes_lt _)
  have huse : ∀ (app : RelayApp) (o : Nat → Option TokenSet),
      (CallbackHandler_get (relay_init v) app o).used_verifier = v := by
    intro app o
    rcases hq : (fetch_loop o 0 5).1 with _ | ts <;>
      simp [CallbackHandler_get, hq, relay_init]
  exact ⟨hch, hlen, hmem, huse app1 o1, huse app2 o2⟩

/-- C9 at a concrete verifier. -/
theorem C9_witness :
    (relay_init "dBjftJeZ4CVP-mB92K27uhbUJU1p1r_wW1gFWFOEjXk").code_challenge.length = 43 ∧
    (CallbackHandler_get
        (relay_init "dBjftJeZ4CVP-mB92K27uhbUJU1p1r_wW1gFWFOEjXk")
        appOld (fun _ => none)).used_verifier =
      "dBjftJeZ4CVP-mB92K27uhbUJU1p1r_wW1gFWFOEjXk" :=
  ⟨(C9_pkce_challenge "dBjftJeZ4CVP-mB92K27uhbUJU1p1r_wW1gFWFOEjXk"
      appOld appOld (fun _ => none) (fun _ => none)).2.1,
   (C9_pkce_challenge "dBjftJeZ4CVP-mB92K27uhbUJU1p1r_wW1gFWFOEjXk"
      appOld appOld (fun _ => none) (fun _ => none)).2.2.2.1⟩

/-- C8: For every connect call finding a cached token whose id-token exp
claim is in the future, connect short-circuits and returns immediately: no
listener port is bound (no _serve), no browser login window is opened (no
_send), no polling tick runs, and the state is untouched apart from the
already-cached token staying in place.  In particular the second of two
successive connect calls, the first having cached a still-valid token, binds
no second port and opens no second window.  CONFIRMED. -/
theorem C8_cached_token_short_circuit (st : Settings) (s : ListenerState)
    (now : Int) (N : Nat) (fn : String) (ap : Nat)
    (arr : Nat → Option (TokenPayload × Bool)) (d : TokenPayload)
    (hp : st.provided = true)
    (ht : s.token_data = some d)
    (he : now < d.id_token.exp) :
    connect st s now N fn ap arr =
      { outcome := Except.ok ()
        state := { s with token_data := some d }
        served := false
        sent := false
        ticks := 0 } := by
  have h0 : expireCheck s.token_data now = some d := by
    rw [ht]
    simp only [expireCheck, if_neg (not_le.mpr he)]
  exact connect_eq_valid st s now N fn ap arr d hp h0

/-- A cached, still-valid token payload. -/
def dCached : TokenPayload :=
  { id_token := { nonce := "n0", exp := 100 }, access_token := "cachedtok" }

/-- The listener state after a first successful connect cached dCached. -/
def sCached : ListenerState := { listener0 with token_data := some dCached }

/-- C8 at a concrete cached unexpired token: no serve, no send, no tick. -/
theorem C8_witness :
    connect stOK sCached 0 30 "n2" 7001 (fun _ => none) =
      { outcome := Except.ok ()
        state := { sCached with token_data := some dCached }
        served := false
        sent := false
        ticks := 0 } :=
  C8_cached_token_short_circuit stOK sCached 0 30 "n2" 7001 (fun _ => none)
    dCached rfl rfl (by decide)

/-- C3 as stated is FALSE of the code on both counts.  Each polling
iteration performs asyncio.sleep(0.25) AND time.sleep(0.25) (auth.py lines
443-445), i.e. half a second, and the loop runs timeout_seconds*4
iterations, so a run with timeout_seconds = 30 and no token sleeps 120 ticks
= 60 seconds (240 quarter-seconds), not within one polling tick of the
30-second deadline (120 + 2 quarter-seconds); and the timeout exception is
raised before stop_server ever runs (line 451), so the listener port stays
bound - stop_server's own docstring notes it is not called on timeout. -/
theorem C3_counterexample :
    (connect stOK listener0 0 30 "n" 7777 (fun _ => none)).outcome =
      Except.error "Timed out awaiting access token! " ∧
    (connect stOK listener0 0 30 "n" 7777 (fun _ => none)).ticks = 120 ∧
    ¬ (2 * (connect stOK listener0 0 30 "n" 7777 (fun _ => none)).ticks ≤
        4 * 30 + 2) ∧
    (connect stOK listener0 0 30 "n" 7777 (fun _ => none)).state.port =
      some 7777 := by
  have hloop := connect_loop_rejected "n" (fun _ => none)
    (fun j dv h => by cases h) (30 * 4) 0
  have hq : (connect_loop "n" (fun _ => none) 0 (30 * 4) none).1 = none := by
    rw [hloop]
  rw [connect_eq_timeout stOK listener0 0 30 "n" 7777 (fun _ => none)
    rfl rfl hq]
  refine ⟨rfl, ?_, ?_, rfl⟩
  · rw [hloop]
  · rw [hloop]
    decide

/-- C3 amended: with timeout_seconds = N and no verified token ever arriving
(every submission rejected by set_token), connect raises the timeout error
after N*4 polling iterations of half a second each - approximately 2N
seconds, double the nominal deadline - and does NOT release the bound
listener port: the state still holds the assigned port, stop_server being
reached only on success. -/
theorem C3_timeout_behaviour (st : Settings) (s : ListenerState) (now : Int)
    (N : Nat) (fn : String) (ap : Nat)
    (arr : Nat → Option (TokenPayload × Bool))
    (hp : st.provided = true)
    (hs : s.token_data = none)
    (hrej : ∀ j dv, arr j = some dv → set_token fn dv.1 dv.2 = none) :
    (connect st s now N fn ap arr).outcome =
      Except.error "Timed out awaiting access token! " ∧
    (connect st s now N fn ap arr).ticks = N * 4 ∧
    (connect st s now N fn ap arr).state.port = some ap := by
  have hloop := connect_loop_rejected fn arr hrej (N * 4) 0
  have h0 : expireCheck s.token_data now = none := by rw [hs]; rfl
  have hq : (connect_loop fn arr 0 (N * 4) none).1 = none := by rw [hloop]
  rw [connect_eq_timeout st s now N fn ap arr hp h0 hq]
  refine ⟨rfl, ?_, rfl⟩
  rw [hloop]

/-- C3 amended theorem at a concrete run: one nonce-mismatched submission
arrives every tick, each is rejected, the loop still times out after N*4
ticks with the port bound. -/
theorem C3_witness :
    (connect stOK listener0 0 2 "good" 7002
        (fun _ => some (dCached, true))).outcome =
      Except.error "Timed out awaiting access token! " ∧
    (connect stOK listener0 0 2 "good" 7002
        (fun _ => some (dCached, true))).ticks = 2 * 4 ∧
    (connect stOK listener0 0 2 "good" 7002
        (fun _ => some (dCached, true))).state.port = some 7002 :=
  C3_timeout_behaviour stOK listener0 0 2 "good" 7002
    (fun _ => some (dCached, true)) rfl rfl
    (fun j dv h => by
      injection h with h1
      rw [← h1]
      decide)

/-- C1: a token payload delivered to the token route with verification
enabled and an id-token nonce differing from the nonce most recently issued
for the attempt is rejected: set_token clears token_data instead of storing
it, the payload never ends up as the stored token_data of the connect call
(whatever else arrives), and the active access_token is either left alone or
taken from some accepted payload distinct from the rejected one - never
extracted from the rejected payload.  CONFIRMED.  (Reuse submissions with
verify disabled are exactly the payloads this claim exempts, so the
hypothesis restricts the rejected payload's own deliveries to verify-enabled
ones.) -/
theorem C1_reject_mismatched_nonce (st : Settings) (s : ListenerState)
    (now : Int) (N : Nat) (fn : String) (ap : Nat)
    (arr : Nat → Option (TokenPayload × Bool)) (d : TokenPayload)
    (hn : d.id_token.nonce ≠ fn)
    (hv : ∀ i v, arr i = some (d, v) → v = true)
    (hs : s.token_data ≠ some d) :
    set_token fn d true = none ∧
    (connect st s now N fn ap arr).state.token_data ≠ some d ∧
    ((connect st s now N fn ap arr).state.access_token = s.access_token ∨
      ∃ q, q ≠ d ∧
        (connect st s now N fn ap arr).state.token_data = some q ∧
        (connect st s now N fn ap arr).state.access_token = q.access_token) := by
  have hrej : set_token fn d true = none := by simp [set_token, hn]
  have hacc : ∀ q, (∃ j dv, arr j = some dv ∧ set_token fn dv.1 dv.2 = some q) →
      q ≠ d := by
    rintro q ⟨j, ⟨d1, v1⟩, hj, hst⟩ hqd
    have h1 : q = d1 := set_token_some hst
    rw [h1] at hqd
    subst hqd
    have hv1 : v1 = true := hv j v1 hj
    rw [hv1] at hst
    rw [hrej] at hst
    exact Option.noConfusion hst
  have main : (connect st s now N fn ap arr).state.token_data ≠ some d ∧
      ((connect st s now N fn ap arr).state.access_token = s.access_token ∨
        ∃ q, q ≠ d ∧
          (connect st s now N fn ap arr).state.token_data = some q ∧
          (connect st s now N fn ap arr).state.access_token =
            q.access_token) := by
    cases hp : st.provided with
    | false =>
      rw [connect_eq_unprovided st s now N fn ap arr hp]
      exact ⟨hs, Or.inl rfl⟩
    | true =>
      rcases h0 : expireCheck s.token_data now with _ | p
      · rcases hq : (connect_loop fn arr 0 (N * 4) none).1 with _ | q
        · rw [connect_eq_timeout st s now N fn ap arr hp h0 hq]
          exact ⟨fun h => Option.noConfusion h, Or.inl rfl⟩
        · have hex := connect_loop_fst_some fn arr (N * 4) 0 none q hq
          rcases hex with h | hex
          · exact Option.noConfusion h
          · have hqd := hacc q hex
            rw [connect_eq_success st s now N fn ap arr q hp h0 hq]
            refine ⟨?_, Or.inr ⟨q, hqd, rfl, rfl⟩⟩
            intro h
            injection h with h1
            exact hqd h1
      · have hsp : s.token_data = some p := expireCheck_some h0
        have hpd : some p ≠ some d := hsp ▸ hs
        rw [connect_eq_valid st s now N fn ap arr p hp h0]
        exact ⟨hpd, Or.inl rfl⟩
  exact ⟨hrej, main.1, main.2⟩

/-- A forged payload whose nonce does not match the issued nonce. -/
def dBad : TokenPayload :=
  { id_token := { nonce := "N1", exp := 99 }, access_token := "abc" }

/-- C1 at a concrete run: the forged payload dBad is submitted with
verification on at every tick while the issued nonce is "N2"; it is
rejected, never stored, and the access token is untouched. -/
theorem C1_witness :
    set_token "N2" dBad true = none ∧
    (connect stOK listener0 0 1 "N2" 7000
        (fun _ => some (dBad, true))).state.token_data ≠ some dBad ∧
    ((connect stOK listener0 0 1 "N2" 7000
        (fun _ => some (dBad, true))).state.access_token =
        listener0.access_token ∨
      ∃ q, q ≠ dBad ∧
        (connect stOK listener0 0 1 "N2" 7000
          (fun _ => some (dBad, true))).state.token_data = some q ∧
        (connect stOK listener0 0 1 "N2" 7000
          (fun _ => some (dBad, true))).state.access_token =
          q.access_token) :=
  C1_reject_mismatched_nonce stOK listener0 0 1 "N2" 7000
    (fun _ => some (dBad, true)) dBad (by decide)
    (fun i v h => by
      injection h with h1
      injection h1 with h2 h3
      exact h3.symm)
    (by decide)

end Asdc
